import Mathlib

/-!
Verification of the dgx-spark-prometheus metric collectors.

The Go sources are shallowly embedded: file/process contents are modelled as
`Option (List Char)` (`none` = the source could not be read), unsigned 64-bit
arithmetic is `Nat` with explicit reduction modulo `2 ^ 64`, and `float64`
values are modelled as rationals.
-/

set_option maxRecDepth 20000

/-- Bit width modulus for Go `uint64` arithmetic. -/
def U64 : Nat := 2 ^ 64

/-- Go `uint64` subtraction `a - b` (wraps modulo `2 ^ 64`). -/
def sub64 (a b : Nat) : Nat := (a + (U64 - b % U64)) % U64

/-- Whitespace test matching `unicode.IsSpace` on the ASCII inputs involved. -/
def isWS (c : Char) : Bool := c = ' ' || c = '\t' || c = '\n' || c = '\r'

/-- Split a character list at every separator recognised by `p`
(the semantics of `strings.Split` for one-character separators). -/
def splitOnPred (p : Char → Bool) : List Char → List (List Char)
  | [] => [[]]
  | c :: cs =>
    if p c then [] :: splitOnPred p cs
    else
      match splitOnPred p cs with
      | [] => [[c]]
      | f :: rest => (c :: f) :: rest

/-- Drop one trailing carriage return, as `bufio.ScanLines` does per token. -/
def dropCR (l : List Char) : List Char :=
  match l.reverse with
  | '\r' :: rest => rest.reverse
  | _ => l

/-- The lines a `bufio.Scanner` yields over the given content. -/
def goLines (text : List Char) : List (List Char) :=
  (splitOnPred (fun c => c = '\n') text).map dropCR

/-- `strings.Fields`: whitespace-separated fields, empty fields dropped. -/
def goFields (l : List Char) : List (List Char) :=
  (splitOnPred isWS l).filter (fun f => !f.isEmpty)

/-- `strings.TrimSpace` on a character list. -/
def trimList (l : List Char) : List Char :=
  ((l.dropWhile isWS).reverse.dropWhile isWS).reverse

/-- `strings.HasPrefix s pre` on character lists (first argument the string). -/
def startsWithList : List Char → List Char → Bool
  | _, [] => true
  | [], _ :: _ => false
  | c :: cs, p :: ps => c = p && startsWithList cs ps

/-- `strings.Contains z sub` on character lists (second argument the string). -/
def containsSub (sub : List Char) : List Char → Bool
  | [] => startsWithList [] sub
  | c :: cs => startsWithList (c :: cs) sub || containsSub sub cs

/-- Decimal digit test, as `strconv` accepts for base-10 integers. -/
def allDigits (l : List Char) : Bool := l.all (fun c => '0' ≤ c && c ≤ '9')

/-- Numeric value of a list of decimal digits. -/
def digitsVal (l : List Char) : Nat :=
  l.foldl (fun n c => n * 10 + (c.toNat - 48)) 0

/-- Parse a non-empty all-digit string to a natural number. -/
def parseNat? (l : List Char) : Option Nat :=
  if !l.isEmpty && allDigits l then some (digitsVal l) else none

/-- `strconv.ParseUint(s, 10, 64)` with the error ignored: a syntax error
yields 0, a range error yields the clamped maximum (Go returns `MaxUint64`
together with `ErrRange`). -/
def goParseUint (l : List Char) : Nat :=
  match parseNat? l with
  | none => 0
  | some n => min n (U64 - 1)

/-- `strconv.ParseUint(s, 10, 64)` with the error observed: `none` exactly
when Go reports an error (syntax or range). -/
def goParseUintOk (l : List Char) : Option Nat :=
  match parseNat? l with
  | none => none
  | some n => if n < U64 then some n else none

/-- Unsigned decimal part of `strconv.ParseFloat`, covering the plain decimal
literals (`123`, `12.5`, `.5`, `123.`) the collectors' data sources produce;
other shapes are parse errors. -/
def parseDecimal? (l : List Char) : Option ℚ :=
  match splitOnPred (fun c => c = '.') l with
  | [ip] => (parseNat? ip).map (fun n => (n : ℚ))
  | [ip, fp] =>
    if ip.isEmpty && fp.isEmpty then none
    else if allDigits ip && allDigits fp then
      some ((digitsVal ip : ℚ) + (digitsVal fp : ℚ) / ((10 : ℚ) ^ fp.length))
    else none
  | _ => none

/-- `strconv.ParseFloat(s, 64)` on the decimal literals of this code base,
returning `none` on a parse error. -/
def parseFloat? (l : List Char) : Option ℚ :=
  match l with
  | '-' :: rest => (parseDecimal? rest).map (fun q => -q)
  | '+' :: rest => parseDecimal? rest
  | _ => parseDecimal? l

/-! ## CPU collector (src/collectors/cpu.go) -/

/-- The mutable delta state of `CPUCollector` (fields `prevIdle`, `prevTotal`). -/
structure CPUState where
  prevIdle : Nat
  prevTotal : Nat
deriving DecidableEq

/-- The seven aggregate counters parsed from the `cpu ` line of `/proc/stat`. -/
structure CpuTicks where
  user : Nat
  nice : Nat
  system : Nat
  idle : Nat
  iowait : Nat
  irq : Nat
  softirq : Nat
deriving DecidableEq

/-- `total` as computed at cpu.go:98 (`uint64` addition, wrapping). -/
def ticksTotal (t : CpuTicks) : Nat :=
  (t.user + t.nice + t.system + t.idle + t.iowait + t.irq + t.softirq) % U64

/-- `idleTotal` as computed at cpu.go:99 (`uint64` addition, wrapping). -/
def ticksIdle (t : CpuTicks) : Nat := (t.idle + t.iowait) % U64

/-- The delta computation of `readCPUUsage` (cpu.go:98-121) once the seven
counters are parsed: stores the new `(idleTotal, total)` pair and returns the
usage value that is emitted. -/
def cpuUsageStep (t : CpuTicks) (st : CPUState) : ℚ × CPUState :=
  let total := ticksTotal t
  let idleTotal := ticksIdle t
  let st' : CPUState := ⟨idleTotal, total⟩
  if st.prevTotal = 0 then (0, st')
  else
    let totalDelta := sub64 total st.prevTotal
    let idleDelta := sub64 idleTotal st.prevIdle
    if totalDelta = 0 then (0, st')
    else (((sub64 totalDelta idleDelta : Nat) : ℚ) / (totalDelta : ℚ) * 100, st')

/-- Parse the seven counters out of the fields of the aggregate CPU line
(cpu.go:90-96; `strconv.ParseUint` errors are discarded by the source). -/
def parseCpuTicks (fs : List (List Char)) : CpuTicks :=
  ⟨goParseUint (fs.getD 1 []), goParseUint (fs.getD 2 []), goParseUint (fs.getD 3 []),
   goParseUint (fs.getD 4 []), goParseUint (fs.getD 5 []), goParseUint (fs.getD 6 []),
   goParseUint (fs.getD 7 [])⟩

/-- The scanner's test for the aggregate CPU line (cpu.go:80:
`strings.HasPrefix(line, "cpu ")`). -/
def isCpuLine (l : List Char) : Bool := startsWithList l ("cpu ".data)

/-- `CPUCollector.readCPUUsage` (cpu.go:70-125): `none` in the first component
means the usage sample is absent; the second component is the state after the
call. -/
def readCPUUsage (content : Option (List Char)) (st : CPUState) : Option ℚ × CPUState :=
  match content with
  | none => (none, st)
  | some text =>
    match (goLines text).find? isCpuLine with
    | none => (none, st)
    | some line =>
      let fs := goFields line
      if fs.length < 8 then (none, st)
      else
        let r := cpuUsageStep (parseCpuTicks fs) st
        (some r.1, r.2)

/-- Whether thermal zone slot `i` exists and its lower-cased, trimmed type
contains `cpu` or `soc` (cpu.go:133-139). -/
def zoneMatchesAt (typeF : Nat → Option (List Char)) (i : Nat) : Bool :=
  match typeF i with
  | none => false
  | some t =>
    let z := (trimList t).map Char.toLower
    containsSub ("cpu".data) z || containsSub ("soc".data) z

/-- The scan loop of `readCPUTemperature` (cpu.go:131-143): starting at index
`i` with `fuel` slots left, the first matching zone index. -/
def findZoneAux (typeF : Nat → Option (List Char)) : Nat → Nat → Option Nat
  | _, 0 => none
  | i, fuel + 1 => if zoneMatchesAt typeF i then some i else findZoneAux typeF (i + 1) fuel

/-- The zone selected by scanning indices 0..9 in increasing order. -/
def findCpuZone (typeF : Nat → Option (List Char)) : Option Nat :=
  findZoneAux typeF 0 10

/-- `readThermalTemp` (cpu.go:150-160): millidegrees to Celsius, `none` on a
read or parse failure. -/
def readThermalTemp (c : Option (List Char)) : Option ℚ :=
  match c with
  | none => none
  | some data =>
    match parseFloat? (trimList data) with
    | none => none
    | some millideg => some (millideg / 1000)

/-- `readCPUTemperature` (cpu.go:129-147): `typeF i` / `tempF i` are the
contents of `thermal_zone<i>/type` and `thermal_zone<i>/temp`. -/
def readCPUTemperature (typeF tempF : Nat → Option (List Char)) : Option ℚ :=
  match findCpuZone typeF with
  | some i => readThermalTemp (tempF i)
  | none => readThermalTemp (tempF 0)

/-- The read loop of `readCPUFrequency` (cpu.go:168-184): file contents from
index `i` on, stopping at the first missing index or when `fuel` runs out. -/
def freqContents (g : Nat → Option (List Char)) : Nat → Nat → List (List Char)
  | _, 0 => []
  | i, fuel + 1 =>
    match g i with
    | none => []
    | some s => s :: freqContents g (i + 1) fuel

/-- `readCPUFrequency` (cpu.go:164-192): `g i` is the content of core `i`'s
`scaling_cur_freq` file; `none` when core 0 is missing or no value parses. -/
def readCPUFrequency (g : Nat → Option (List Char)) : Option ℚ :=
  let vals := (freqContents g 0 256).filterMap (fun s => parseFloat? (trimList s))
  if vals.length = 0 then none
  else some (vals.sum / (vals.length : ℚ) / 1000)

/-- `CPUCollector.Collect` (cpu.go:54-66): the emitted `(metric, value)`
samples, one per sub-metric that is present, and the updated delta state. -/
def cpuCollect (stat : Option (List Char)) (typeF tempF freqF : Nat → Option (List Char))
    (st : CPUState) : List (String × ℚ) × CPUState :=
  let r := readCPUUsage stat st
  ((r.1.map (fun q => ("cpu_usage_percent", q))).toList ++
   ((readCPUTemperature typeF tempF).map (fun q => ("cpu_temperature_celsius", q))).toList ++
   ((readCPUFrequency freqF).map (fun q => ("cpu_frequency_mhz", q))).toList,
   r.2)

/-! ## Memory collector -/

/-- Rejoin split parts with the separator character (for `SplitN`'s tail). -/
def joinSep (sep : Char) : List (List Char) → List Char
  | [] => []
  | [x] => x
  | x :: rest => x ++ sep :: joinSep sep rest

/-- `strings.SplitN(line, sep, 2)` for a one-character separator. -/
def splitN2 (sep : Char) (l : List Char) : List (List Char) :=
  match splitOnPred (fun c => c = sep) l with
  | [] => []
  | [x] => [x]
  | x :: rest => [x, joinSep sep rest]

/-- `strings.TrimSuffix(s, " kB")`. -/
def trimSuffixKB (l : List Char) : List Char :=
  match l.reverse with
  | 'B' :: 'k' :: ' ' :: rest => rest.reverse
  | _ => l

/-- `readMemInfo` (meminfo source): association list of key/value-in-kB pairs,
in file order; lines that do not split in two at a colon or whose value does
not parse are skipped. -/
def readMemInfo (text : List Char) : List (List Char × Nat) :=
  (goLines text).filterMap (fun line =>
    match splitN2 ':' line with
    | [k, v] =>
      match goParseUintOk (trimList (trimSuffixKB (trimList v))) with
      | some n => some (trimList k, n)
      | none => none
    | _ => none)

/-- Go map lookup on the parsed info: the zero value 0 for a missing key,
the last inserted value for a duplicated key. -/
def memLookup (m : List (List Char × Nat)) (k : List Char) : Nat :=
  match m.reverse.find? (fun e => e.1 == k) with
  | some e => e.2
  | none => 0

/-- `MemoryCollector.Collect`: the emitted `(metric, value-in-bytes)` samples.
The `used` subtraction chain is `uint64` arithmetic, so it wraps; the
`usedBytes < 0` fallback test is kept exactly as in the source. -/
def memoryCollect (content : Option (List Char)) : List (String × ℚ) :=
  match content with
  | none => []
  | some text =>
    let info := readMemInfo text
    let totalKB := memLookup info ("MemTotal".data)
    let freeKB := memLookup info ("MemFree".data)
    let buffersKB := memLookup info ("Buffers".data)
    let cachedKB := memLookup info ("Cached".data)
    let totalBytes : ℚ := (totalKB : ℚ) * 1024
    let usedKB := sub64 (sub64 (sub64 totalKB freeKB) buffersKB) cachedKB
    let usedBytes : ℚ := (usedKB : ℚ) * 1024
    let usedBytes' : ℚ :=
      if usedBytes < 0 then ((sub64 totalKB freeKB : Nat) : ℚ) * 1024 else usedBytes
    [("memory_total_bytes", totalBytes), ("memory_used_bytes", usedBytes')]

/-! ## GPU collector -/

/-- `parseNvidiaSmiFloat`: tolerant float parse with the `N/A` sentinels and
any other parse failure mapping to 0. -/
def parseNvidiaSmiFloat (l : List Char) : ℚ :=
  let s := trimList l
  if s.isEmpty || s == ("[N/A]".data) || s == ("N/A".data) then 0
  else
    match parseFloat? s with
    | none => 0
    | some v => v

/-- The first line of the trimmed tool output (`strings.Split` keeps at least
one element, so this is the `lines[0]` the source reads). -/
def firstGpuLine (o : List Char) : List Char :=
  (splitOnPred (fun c => c = '\n') (trimList o)).headD []

/-- `GPUCollector.Collect`: `none` input means the `nvidia-smi` invocation
failed; otherwise the argument is its standard output. -/
def gpuCollect (out : Option (List Char)) : List (String × ℚ) :=
  match out with
  | none => []
  | some o =>
    match splitOnPred (fun c => c = '\n') (trimList o) with
    | [] => []
    | line0 :: _ =>
      let fs := splitOnPred (fun c => c = ',') line0
      if fs.length < 4 then []
      else
        [("gpu_utilization_percent", parseNvidiaSmiFloat (fs.getD 0 [])),
         ("gpu_temperature_celsius", parseNvidiaSmiFloat (fs.getD 1 [])),
         ("gpu_frequency_mhz", parseNvidiaSmiFloat (fs.getD 3 [])),
         ("gpu_power_watts", parseNvidiaSmiFloat (fs.getD 2 []))]

/-! ## Network collector -/

/-- The fixed monitored interface list. -/
def monitoredInterfaces : List String :=
  ["enP7s7", "enp1s0f1np1", "enP2p1s0f1np1", "enp1s0f0np0", "enP2p1s0f0np0", "wlP9s9"]

/-- `isInterfaceUp`: `oper iface` is the content of the interface's
`operstate` file. -/
def isInterfaceUp (oper : String → Option (List Char)) (iface : String) : Bool :=
  match oper iface with
  | none => false
  | some d => trimList d == ("up".data)

/-- `readSysUint64`: 0 on any read or parse failure. -/
def readSysUint64 (c : Option (List Char)) : Nat :=
  match c with
  | none => 0
  | some d =>
    match goParseUintOk (trimList d) with
    | none => 0
    | some v => v

/-- One emitted network sample. -/
structure NetSample where
  metric : String
  iface : String
  value : Nat
deriving DecidableEq

/-- The four counter samples emitted for one up interface; `stats iface file`
is the content of `/sys/class/net/<iface>/statistics/<file>`. -/
def ifaceSamples (stats : String → String → Option (List Char)) (iface : String) :
    List NetSample :=
  [⟨"network_receive_bytes_total", iface, readSysUint64 (stats iface "rx_bytes")⟩,
   ⟨"network_transmit_bytes_total", iface, readSysUint64 (stats iface "tx_bytes")⟩,
   ⟨"network_receive_packets_total", iface, readSysUint64 (stats iface "rx_packets")⟩,
   ⟨"network_transmit_packets_total", iface, readSysUint64 (stats iface "tx_packets")⟩]

/-- `NetworkCollector.Collect`. -/
def networkCollect (oper : String → Option (List Char))
    (stats : String → String → Option (List Char)) : List NetSample :=
  (monitoredInterfaces.map (fun iface =>
    if isInterfaceUp oper iface then ifaceSamples stats iface else [])).flatten

/-! ## Disk collector (src/collectors/disk.go) -/

/-- Physical device name allowlist (disk.go:62). -/
def physicalDeviceNames : List (List Char) :=
  ["sd".data, "nvme".data, "vd".data, "hd".data, "xvd".data, "mmcblk".data]

/-- Excluded virtual device names (disk.go:63). -/
def excludedDeviceNames : List (List Char) :=
  ["loop".data, "ram".data, "dm-".data, "sr".data, "fd".data]

/-- `hasAnyPrefix` (disk.go:114-121). -/
def hasAnyPrefix (s : List Char) (ps : List (List Char)) : Bool :=
  ps.any (fun p => startsWithList s p)

/-- The device name field of a diskstats line (field index 2). -/
def diskDevice (line : List Char) : List Char := (goFields line).getD 2 []

/-- `strconv.ParseFloat` with the error discarded (disk.go:86-87). -/
def goParseFloatLenient (l : List Char) : ℚ :=
  match parseFloat? l with
  | none => 0
  | some v => v

/-- The samples one diskstats line contributes in `collectDiskIO`
(disk.go:66-91): `(metric, device, value)` triples. -/
def diskLineSamples (line : List Char) : List (String × List Char × ℚ) :=
  if (goFields line).length < 14 then []
  else if hasAnyPrefix (diskDevice line) excludedDeviceNames then []
  else if hasAnyPrefix (diskDevice line) physicalDeviceNames then
    [("diskio_reads_completed_total", diskDevice line,
      goParseFloatLenient ((goFields line).getD 3 [])),
     ("diskio_writes_completed_total", diskDevice line,
      goParseFloatLenient ((goFields line).getD 7 []))]
  else []

/-- `collectDiskIO` (disk.go:55-92) over the whole diskstats content. -/
def collectDiskIO (content : Option (List Char)) : List (String × List Char × ℚ) :=
  match content with
  | none => []
  | some t => ((goLines t).map diskLineSamples).flatten

/-! ## Concrete configurations used in the testable-property instances -/

/-- Two cores at 1200000 kHz and 1800000 kHz, no further cores. -/
def freqFilesTwo : Nat → Option (List Char) :=
  fun i => if i = 0 then some ("1200000".data)
           else if i = 1 then some ("1800000".data) else none

/-- Three cores, the middle one with an unparsable value. -/
def freqFilesSkip : Nat → Option (List Char) :=
  fun i => if i = 0 then some ("1200000".data)
           else if i = 1 then some ("garbage".data)
           else if i = 2 then some ("1800000".data) else none

/-- Core 0 present, core 1 missing, core 2 present again beyond the gap. -/
def freqFilesGap : Nat → Option (List Char) :=
  fun i => if i = 0 then some ("1200000".data)
           else if i = 2 then some ("1800000".data) else none

/-- Zone types `x86_pkg_temp`, `acpitz`, `cpu-thermal` at indices 0, 1, 2. -/
def zoneTypesEx : Nat → Option (List Char) :=
  fun i => if i = 0 then some ("x86_pkg_temp".data)
           else if i = 1 then some ("acpitz".data)
           else if i = 2 then some ("cpu-thermal".data) else none

/-- Temperatures: 11000 millidegrees everywhere except 45000 at index 2. -/
def zoneTempsEx : Nat → Option (List Char) :=
  fun i => if i = 2 then some ("45000\n".data) else some ("11000\n".data)

/-- Zone types with no `cpu`/`soc` match anywhere. -/
def zoneTypesNoMatch : Nat → Option (List Char) :=
  fun i => if i = 0 then some ("x86_pkg_temp".data)
           else if i = 1 then some ("acpitz".data) else none

/-- Temperature files all missing. -/
def zoneTempsMissing : Nat → Option (List Char) := fun _ => none

/-- Operstate files: only `enP7s7` exists and is up. -/
def netOperEx : String → Option (List Char) :=
  fun iface => if iface = "enP7s7" then some ("up\n".data) else none

/-- Operstate files: `enP7s7` exists but is down, everything else missing. -/
def netOperDown : String → Option (List Char) :=
  fun iface => if iface = "enP7s7" then some ("down\n".data) else none

/-- Counter files: rx_bytes readable with value 7, the rest unreadable. -/
def netStatsEx : String → String → Option (List Char) :=
  fun _ file => if file = "rx_bytes" then some ("7\n".data) else none

/-- A diskstats line for `nvme0n1` with 14 fields (123 reads, 456 writes). -/
def diskLineNvme : List Char :=
  "259 0 nvme0n1 123 0 0 0 456 0 0 0 0 0 0".data

/-- A diskstats line for `loop0` with 14 fields. -/
def diskLineLoop : List Char :=
  "7 0 loop0 9 0 0 0 9 0 0 0 0 0 0".data

/-- A diskstats line for `dm-1` with 14 fields. -/
def diskLineDm : List Char :=
  "253 1 dm-1 9 0 0 0 9 0 0 0 0 0 0".data

/-- A diskstats line for `zram0` with 14 fields. -/
def diskLineZram : List Char :=
  "252 0 zram0 9 0 0 0 9 0 0 0 0 0 0".data

/-- The meminfo content of the spec's positive memory test. -/
def memGood : List Char :=
  "MemTotal: 1000 kB\nMemFree: 200 kB\nBuffers: 100 kB\nCached: 100 kB\n".data

/-- A meminfo snapshot whose mathematically computed used value is negative
(1000 - 200 - 600 - 600 = -400 kB). -/
def memBad : List Char :=
  "MemTotal: 1000 kB\nMemFree: 200 kB\nBuffers: 600 kB\nCached: 600 kB\n".data

/-! ## Helper lemmas -/

lemma U64_pos : 0 < U64 := by decide

lemma sub64_eq_sub (a b : Nat) (ha : a < U64) (hba : b ≤ a) : sub64 a b = a - b := by
  have hb : b < U64 := lt_of_le_of_lt hba ha
  unfold sub64
  rw [Nat.mod_eq_of_lt hb]
  have h : a + (U64 - b) = U64 + (a - b) := by omega
  rw [h, Nat.add_mod_left]
  exact Nat.mod_eq_of_lt (by omega)

lemma ticksTotal_lt (t : CpuTicks) : ticksTotal t < U64 := Nat.mod_lt _ U64_pos

lemma ticksIdle_lt (t : CpuTicks) : ticksIdle t < U64 := Nat.mod_lt _ U64_pos

lemma cpuUsageStep_state (t : CpuTicks) (st : CPUState) :
    (cpuUsageStep t st).2 = ⟨ticksIdle t, ticksTotal t⟩ := by
  unfold cpuUsageStep
  dsimp only
  split
  · rfl
  · split <;> rfl

lemma cpuUsageStep_fresh (t : CpuTicks) (st : CPUState) (h : st.prevTotal = 0) :
    (cpuUsageStep t st).1 = 0 := by
  unfold cpuUsageStep
  simp [h]

lemma cpuUsageStep_nonneg (t : CpuTicks) (st : CPUState) : 0 ≤ (cpuUsageStep t st).1 := by
  unfold cpuUsageStep
  dsimp only
  split
  · norm_num
  · split
    · norm_num
    · positivity

lemma readCPUUsage_emits_nonneg (content : Option (List Char)) (st : CPUState) :
    0 ≤ ((readCPUUsage content st).1.getD 0) := by
  unfold readCPUUsage
  cases content with
  | none => simp
  | some text =>
    cases hf : (goLines text).find? isCpuLine with
    | none => simp [hf]
    | some line =>
      by_cases hlen : (goFields line).length < 8
      · simp [hf, hlen]
      · simp only [hf, hlen, if_false]
        simpa using cpuUsageStep_nonneg (parseCpuTicks (goFields line)) st

/-! ## Claim theorems -/

/-- Claim C1: over a well-formed aggregate CPU line (all seven counters
parsed, sums not overflowing, counters cumulative since the stored previous
sample), `readCPUUsage`'s delta computation emits 0 on a fresh collector and
whenever the stored previous total is zero, emits 0 when the total delta is
zero (no division error), otherwise emits exactly
`(totalDelta - idleDelta) / totalDelta * 100` with
`total = user+nice+system+idle+iowait+irq+softirq` and `idleTotal =
idle+iowait`, and every call stores `(total, idleTotal)` as the new previous
state. -/
theorem cpu_usage_delta_formula (t : CpuTicks) (st : CPUState)
    (hm1 : st.prevTotal ≤ ticksTotal t)
    (hm2 : st.prevIdle ≤ ticksIdle t)
    (hm3 : ticksIdle t - st.prevIdle ≤ ticksTotal t - st.prevTotal) :
    (cpuUsageStep t st).2 = ⟨ticksIdle t, ticksTotal t⟩
    ∧ (∀ c q, (readCPUUsage c ⟨0, 0⟩).1 = some q → q = 0)
    ∧ (st.prevTotal = 0 → (cpuUsageStep t st).1 = 0)
    ∧ (ticksTotal t = st.prevTotal → (cpuUsageStep t st).1 = 0)
    ∧ (st.prevTotal ≠ 0 → ticksTotal t ≠ st.prevTotal →
        (cpuUsageStep t st).1 =
          (((ticksTotal t - st.prevTotal : Nat) : ℚ)
              - ((ticksIdle t - st.prevIdle : Nat) : ℚ))
            / ((ticksTotal t - st.prevTotal : Nat) : ℚ) * 100) := by
  refine ⟨cpuUsageStep_state t st, ?_, fun h => cpuUsageStep_fresh t st h, ?_, ?_⟩
  · intro c q hq
    cases c with
    | none => simp [readCPUUsage] at hq
    | some text =>
      cases hf : (goLines text).find? isCpuLine with
      | none => simp [readCPUUsage, hf] at hq
      | some line =>
        by_cases hlen : (goFields line).length < 8
        · simp [readCPUUsage, hf, hlen] at hq
        · simp only [readCPUUsage, hf, hlen, if_false, Option.some.injEq] at hq
          have h0 := cpuUsageStep_fresh (parseCpuTicks (goFields line)) ⟨0, 0⟩ rfl
          rw [← hq, h0]
  · intro heq
    unfold cpuUsageStep
    dsimp only
    split
    · rfl
    · rw [heq, sub64_eq_sub st.prevTotal st.prevTotal
        (heq ▸ ticksTotal_lt t) le_rfl, Nat.sub_self]
      simp
  · intro hne hneq
    have hΔ : sub64 (ticksTotal t) st.prevTotal = ticksTotal t - st.prevTotal :=
      sub64_eq_sub _ _ (ticksTotal_lt t) hm1
    have hΔi : sub64 (ticksIdle t) st.prevIdle = ticksIdle t - st.prevIdle :=
      sub64_eq_sub _ _ (ticksIdle_lt t) hm2
    have hΔpos : ticksTotal t - st.prevTotal ≠ 0 := by omega
    unfold cpuUsageStep
    dsimp only
    have hlt : ticksTotal t - st.prevTotal < U64 := by
      have := ticksTotal_lt t; omega
    rw [if_neg hne, hΔ, hΔi, if_neg hΔpos, sub64_eq_sub _ _ hlt hm3, Nat.cast_sub hm3]

/-- Witness for C1 at the concrete counters (50,0,30,60,20,10,30) over the
previous state (idle 40, total 100): total delta 100, idle delta 40, usage
60, and the state advances to (80, 200). -/
theorem cpu_usage_delta_formula_instance :
    (cpuUsageStep ⟨50, 0, 30, 60, 20, 10, 30⟩ ⟨40, 100⟩).1 = 60
    ∧ (cpuUsageStep ⟨50, 0, 30, 60, 20, 10, 30⟩ ⟨40, 100⟩).2 = ⟨80, 200⟩ := by
  have h := cpu_usage_delta_formula ⟨50, 0, 30, 60, 20, 10, 30⟩ ⟨40, 100⟩
    (by decide) (by decide) (by decide)
  refine ⟨?_, by rw [h.1]; decide⟩
  rw [h.2.2.2.2 (by decide) (by decide)]
  norm_num [ticksTotal, ticksIdle, U64]

/-- Claim C10: the emitted CPU usage value is never negative, for every input
and every stored state, because the deltas are wrapped `uint64` quantities and
the emitted value is a quotient of non-negative numbers times 100; an
inconsistent reading can therefore only surface on the high side, never as a
negative value. -/
theorem cpu_usage_never_negative (content : Option (List Char)) (st : CPUState) :
    0 ≤ ((readCPUUsage content st).1.getD 0) :=
  readCPUUsage_emits_nonneg content st

/-- Claim C3 counterexample: the claim says a non-numeric counter field makes
the usage sample absent, but `strconv.ParseUint` errors are discarded
(cpu.go:90-96), so the aggregate line `cpu a 0 0 0 0 0 0` — whose `user`
field is not numeric — still emits a usage sample (value 0, the fresh-state
branch). -/
theorem cpu_usage_non_numeric_still_emits :
    (readCPUUsage (some ("cpu a 0 0 0 0 0 0".data)) ⟨0, 0⟩).1 = some 0 := by
  with_unfolding_all decide

/-- Claim C3 as amended: a read failure of the counters source, an absent
aggregate CPU line, or an aggregate line with fewer than 8 fields makes the
usage sample absent; a non-numeric counter field does NOT — it is parsed as 0
and the sample is still emitted; and any such failure affects only the usage
sub-metric: the temperature and frequency samples of `Collect` are unchanged
under any two counters-source states. -/
theorem cpu_usage_failure_localization (st st2 : CPUState) (text line : List Char)
    (stat stat2 : Option (List Char)) (typeF tempF freqF : Nat → Option (List Char)) :
    (readCPUUsage none st).1 = none
    ∧ ((goLines text).find? isCpuLine = none → (readCPUUsage (some text) st).1 = none)
    ∧ ((goLines text).find? isCpuLine = some line → (goFields line).length < 8 →
        (readCPUUsage (some text) st).1 = none)
    ∧ (readCPUUsage (some ("cpu a 0 0 0 0 0 0".data)) ⟨0, 0⟩).1 = some 0
    ∧ ((cpuCollect stat typeF tempF freqF st).1.filter
          (fun p => p.1 != "cpu_usage_percent")
        = (cpuCollect stat2 typeF tempF freqF st2).1.filter
          (fun p => p.1 != "cpu_usage_percent")) := by
  refine ⟨rfl, ?_, ?_, by with_unfolding_all decide, ?_⟩
  · intro hf
    simp [readCPUUsage, hf]
  · intro hf hlen
    simp [readCPUUsage, hf, hlen]
  · have hu : ∀ (u : Option ℚ),
        ((u.map (fun q => (("cpu_usage_percent" : String), q))).toList.filter
          (fun p => p.1 != "cpu_usage_percent")) = [] := by
      intro u
      cases u <;> simp
    unfold cpuCollect
    dsimp only
    rw [List.filter_append, List.filter_append, List.filter_append, List.filter_append,
      hu, hu]

/-- Witness for C3 (amended): a counters source with no aggregate CPU line
(`intr 5`) and an unreadable counters source both yield an absent usage
sample. -/
theorem cpu_usage_failure_localization_instance :
    (readCPUUsage (some ("intr 5".data)) ⟨0, 0⟩).1 = none
    ∧ (readCPUUsage none ⟨0, 0⟩).1 = none := by
  have h := cpu_usage_failure_localization ⟨0, 0⟩ ⟨0, 0⟩ ("intr 5".data) []
    none none (fun _ => none) (fun _ => none) (fun _ => none)
  exact ⟨h.2.1 (by with_unfolding_all decide), h.1⟩

/-- Claim C2: the spec's positive instance holds (MemTotal 1000, MemFree 200,
Buffers 100, Cached 100 yields used = 600*1024 bytes), but the negative
fallback does not: for MemTotal 1000, MemFree 200, Buffers 600, Cached 600
the mathematically negative used value (-400 kB) wraps in `uint64` to
`2^64 - 400` kB, `float64(uint64)` is never negative, so the `usedBytes < 0`
fallback branch (part_000:157-159) is dead and the collector emits the wrapped
huge value instead of the documented fallback `(total - free) * 1024`. -/
theorem memory_used_wrap_no_fallback :
    memoryCollect (some memBad) =
      [("memory_total_bytes", 1024000),
       ("memory_used_bytes", ((U64 - 400 : Nat) : ℚ) * 1024)]
    ∧ ((U64 - 400 : Nat) : ℚ) * 1024 ≠ ((1000 - 200 : Nat) : ℚ) * 1024
    ∧ memoryCollect (some memGood) =
      [("memory_total_bytes", 1024000), ("memory_used_bytes", 600 * 1024)] := by
  refine ⟨?_, by norm_num [U64], ?_⟩
  · have h1 : memLookup (readMemInfo memBad) ("MemTotal".data) = 1000 := by decide
    have h2 : memLookup (readMemInfo memBad) ("MemFree".data) = 200 := by decide
    have h3 : memLookup (readMemInfo memBad) ("Buffers".data) = 600 := by decide
    have h4 : memLookup (readMemInfo memBad) ("Cached".data) = 600 := by decide
    have h5 : sub64 1000 200 = 800 := by decide
    have h6 : sub64 (sub64 800 600) 600 = U64 - 400 := by decide
    simp only [memoryCollect, h1, h2, h3, h4, h5, h6]
    norm_num [U64]
  · have h1 : memLookup (readMemInfo memGood) ("MemTotal".data) = 1000 := by decide
    have h2 : memLookup (readMemInfo memGood) ("MemFree".data) = 200 := by decide
    have h3 : memLookup (readMemInfo memGood) ("Buffers".data) = 100 := by decide
    have h4 : memLookup (readMemInfo memGood) ("Cached".data) = 100 := by decide
    have h5 : sub64 1000 200 = 800 := by decide
    have h6 : sub64 (sub64 800 100) 100 = 600 := by decide
    simp only [memoryCollect, h1, h2, h3, h4, h5, h6]
    norm_num

/-- Claim C4 counterexample: the claim says the two memory samples are emitted
only when the parsed mapping provides the keys MemTotal, MemFree, Buffers and
Cached, but on a readable source containing none of them (`Foo: 1 kB`) the
collector still emits both samples — Go map lookups default missing keys to
0. -/
theorem memory_missing_keys_still_emits :
    readMemInfo ("Foo: 1 kB".data) = [("Foo".data, 1)]
    ∧ memoryCollect (some ("Foo: 1 kB".data)) =
      [("memory_total_bytes", 0), ("memory_used_bytes", 0)] := by
  refine ⟨by decide, ?_⟩
  have h1 : ∀ k : List Char, memLookup (readMemInfo ("Foo: 1 kB".data)) k
      = memLookup [("Foo".data, 1)] k := by
    intro k
    rw [show readMemInfo ("Foo: 1 kB".data) = [("Foo".data, 1)] from by decide]
  have h2 : memLookup [("Foo".data, 1)] ("MemTotal".data) = 0 := by decide
  have h3 : memLookup [("Foo".data, 1)] ("MemFree".data) = 0 := by decide
  have h4 : memLookup [("Foo".data, 1)] ("Buffers".data) = 0 := by decide
  have h5 : memLookup [("Foo".data, 1)] ("Cached".data) = 0 := by decide
  have h6 : sub64 (sub64 (sub64 0 0) 0) 0 = 0 := by decide
  have h7 : sub64 0 0 = 0 := by decide
  simp only [memoryCollect, h1, h2, h3, h4, h5, h6, h7]
  norm_num

/-- Claim C4 as amended: the four keys are not required — a missing key
contributes the Go map zero value 0 — and `Collect` emits exactly its two
samples whenever the source can be opened; it emits nothing exactly when the
source cannot be opened. -/
theorem memory_collect_open_iff_emits :
    memoryCollect none = []
    ∧ (∀ text : List Char, (memoryCollect (some text)).length = 2)
    ∧ (∀ k : List Char, memLookup [] k = 0) := by
  refine ⟨rfl, ?_, fun k => rfl⟩
  intro text
  simp [memoryCollect]

lemma freqContents_congr (g g' : Nat → Option (List Char)) (i : Nat)
    (h1 : g i = none) (h2 : ∀ j, j ≤ i → g' j = g j) :
    ∀ fuel i0, i0 ≤ i → freqContents g' i0 fuel = freqContents g i0 fuel := by
  intro fuel
  induction fuel with
  | zero => intro i0 _; rfl
  | succ n ih =>
    intro i0 hi0
    have hg0 : g' i0 = g i0 := h2 i0 hi0
    cases hg : g i0 with
    | none => simp [freqContents, hg, hg0]
    | some s =>
      have hne : i0 ≠ i := by
        intro he
        rw [he, h1] at hg
        exact Option.noConfusion hg
      have hlt : i0 + 1 ≤ i := by omega
      simp [freqContents, hg, hg0, ih (i0 + 1) hlt]

/-- Claim C5: if core 0's frequency file is missing the sample is absent;
iteration stops at the first missing core index, so the result only depends on
the cores before the gap; cores reporting 1200000 and 1800000 kHz average to
exactly 1500 MHz; an unparsable core value is skipped without aborting and
without counting toward the average; and a gap after core 0 averages only the
cores before the gap. -/
theorem cpu_frequency_average (g g' : Nat → Option (List Char)) (i : Nat)
    (h1 : g i = none) (h2 : ∀ j, j ≤ i → g' j = g j) :
    (g 0 = none → readCPUFrequency g = none)
    ∧ readCPUFrequency g' = readCPUFrequency g
    ∧ readCPUFrequency freqFilesTwo = some 1500
    ∧ readCPUFrequency freqFilesSkip = some 1500
    ∧ readCPUFrequency freqFilesGap = some 1200 := by
  refine ⟨?_, ?_, by with_unfolding_all decide, by with_unfolding_all decide,
    by with_unfolding_all decide⟩
  · intro h0
    have hc : freqContents g 0 256 = [] := by
      unfold freqContents
      rw [h0]
    unfold readCPUFrequency
    rw [hc]
    rfl
  · unfold readCPUFrequency
    rw [freqContents_congr g g' i h1 h2 256 0 (Nat.zero_le i)]

/-- Witness for C5: all-missing frequency files yield an absent sample, and
the two-core example averages to 1500 MHz. -/
theorem cpu_frequency_average_instance :
    readCPUFrequency (fun _ => none) = none
    ∧ readCPUFrequency freqFilesTwo = some 1500 := by
  have h := cpu_frequency_average (fun _ => none) (fun _ => none) 0 rfl
    (fun _ _ => rfl)
  exact ⟨h.1 rfl, h.2.2.1⟩

lemma findZoneAux_eq_some (typeF : Nat → Option (List Char)) :
    ∀ fuel i0 i, i0 ≤ i → i < i0 + fuel → zoneMatchesAt typeF i = true →
      (∀ j, i0 ≤ j → j < i → zoneMatchesAt typeF j = false) →
      findZoneAux typeF i0 fuel = some i := by
  intro fuel
  induction fuel with
  | zero => intro i0 i hle hlt _ _; omega
  | succ n ih =>
    intro i0 i hle hlt hm hb
    by_cases he : i0 = i
    · subst he
      simp [findZoneAux, hm]
    · have h0 : zoneMatchesAt typeF i0 = false := hb i0 le_rfl (by omega)
      simp only [findZoneAux, h0, Bool.false_eq_true, if_false]
      exact ih (i0 + 1) i (by omega) (by omega) hm (fun j hj1 hj2 => hb j (by omega) hj2)

lemma findZoneAux_eq_none (typeF : Nat → Option (List Char)) :
    ∀ fuel i0, (∀ j, i0 ≤ j → j < i0 + fuel → zoneMatchesAt typeF j = false) →
      findZoneAux typeF i0 fuel = none := by
  intro fuel
  induction fuel with
  | zero => intro i0 _; rfl
  | succ n ih =>
    intro i0 hb
    have h0 : zoneMatchesAt typeF i0 = false := hb i0 le_rfl (by omega)
    simp only [findZoneAux, h0, Bool.false_eq_true, if_false]
    exact ih (i0 + 1) (fun j hj1 hj2 => hb j (by omega) (by omega))

/-- Claim C6: scanning zone indices 0..9 in increasing order, the first zone
whose lower-cased type contains `cpu` or `soc` is selected and its temp file
value in millidegrees is divided by 1000; when no zone in the range matches,
zone 0 is the fallback; a read failure at the fallback yields an absent
sample; and for zones `x86_pkg_temp`, `acpitz`, `cpu-thermal` at indices
0, 1, 2 the temperature comes from index 2 (45000 millidegrees = 45 C). -/
theorem cpu_temperature_zone_selection (typeF tempF : Nat → Option (List Char))
    (i : Nat) (hi : i < 10) (hm : zoneMatchesAt typeF i = true)
    (hbefore : ∀ j, j < i → zoneMatchesAt typeF j = false) :
    readCPUTemperature typeF tempF = readThermalTemp (tempF i)
    ∧ (∀ typeG tempG : Nat → Option (List Char),
        (∀ j, j < 10 → zoneMatchesAt typeG j = false) →
        readCPUTemperature typeG tempG = readThermalTemp (tempG 0))
    ∧ readCPUTemperature zoneTypesNoMatch zoneTempsMissing = none
    ∧ readCPUTemperature zoneTypesEx zoneTempsEx = some 45
    ∧ readThermalTemp (some ("45000\n".data)) = some 45 := by
  refine ⟨?_, ?_, by with_unfolding_all decide, ?_, by with_unfolding_all decide⟩
  · have hf : findCpuZone typeF = some i :=
      findZoneAux_eq_some typeF 10 0 i (Nat.zero_le i) (by omega) hm
        (fun j _ hj => hbefore j hj)
    unfold readCPUTemperature
    rw [hf]
  · intro typeG tempG hb
    have hf : findCpuZone typeG = none :=
      findZoneAux_eq_none typeG 10 0 (fun j _ hj => hb j (by omega))
    unfold readCPUTemperature
    rw [hf]
  · with_unfolding_all decide

/-- Witness for C6 at the spec's zone table: index 2 (`cpu-thermal`) is
selected and its 45000 millidegrees yield 45 degrees Celsius. -/
theorem cpu_temperature_zone_selection_instance :
    readCPUTemperature zoneTypesEx zoneTempsEx = readThermalTemp (zoneTempsEx 2)
    ∧ readCPUTemperature zoneTypesEx zoneTempsEx = some 45 := by
  have h := cpu_temperature_zone_selection zoneTypesEx zoneTempsEx 2
    (by decide) (by decide) (by decide)
  exact ⟨h.1, h.2.2.2.1⟩

lemma splitOnPred_ne_nil (p : Char → Bool) (l : List Char) : splitOnPred p l ≠ [] := by
  induction l with
  | nil => simp [splitOnPred]
  | cons c cs ih =>
    unfold splitOnPred
    by_cases h : p c
    · simp [h]
    · simp only [h, Bool.false_eq_true, if_false]
      cases hs : splitOnPred p cs with
      | nil => exact absurd hs ih
      | cons f rest => simp

/-- Claim C7: a failed tool invocation emits nothing; a first output line with
fewer than four comma-separated fields emits nothing; otherwise all four
samples are emitted; the output `45, 62, 12.5, 1300` yields utilization 45,
temperature 62, power 12.5, frequency 1300; and the `N/A` / `[N/A]` sentinels
parse to 0 without aborting the other fields. -/
theorem gpu_collect_all_or_nothing (o : List Char)
    (h4 : 4 ≤ (splitOnPred (fun c => c = ',') (firstGpuLine o)).length) :
    gpuCollect none = []
    ∧ (∀ o2 : List Char,
        (splitOnPred (fun c => c = ',') (firstGpuLine o2)).length < 4 →
        gpuCollect (some o2) = [])
    ∧ (gpuCollect (some o)).length = 4
    ∧ gpuCollect (some ("45, 62, 12.5, 1300".data)) =
        [("gpu_utilization_percent", 45), ("gpu_temperature_celsius", 62),
         ("gpu_frequency_mhz", 1300), ("gpu_power_watts", (12.5 : ℚ))]
    ∧ gpuCollect (some ("45, 62, [N/A], 1300".data)) =
        [("gpu_utilization_percent", 45), ("gpu_temperature_celsius", 62),
         ("gpu_frequency_mhz", 1300), ("gpu_power_watts", 0)]
    ∧ parseNvidiaSmiFloat ("N/A".data) = 0
    ∧ parseNvidiaSmiFloat ("[N/A]".data) = 0 := by
  refine ⟨rfl, ?_, ?_, by with_unfolding_all decide, by with_unfolding_all decide,
    by decide, by decide⟩
  · intro o2 hlt
    cases hs : splitOnPred (fun c => c = '\n') (trimList o2) with
    | nil => exact absurd hs (splitOnPred_ne_nil _ _)
    | cons line0 rest =>
      have hline : firstGpuLine o2 = line0 := by
        unfold firstGpuLine
        rw [hs]
        rfl
      rw [hline] at hlt
      simp [gpuCollect, hs, hlt]
  · cases hs : splitOnPred (fun c => c = '\n') (trimList o) with
    | nil => exact absurd hs (splitOnPred_ne_nil _ _)
    | cons line0 rest =>
      have hline : firstGpuLine o = line0 := by
        unfold firstGpuLine
        rw [hs]
        rfl
      rw [hline] at h4
      simp [gpuCollect, hs, Nat.not_lt.mpr h4]

/-- Witness for C7: a four-field output emits exactly four samples and a
one-field output emits nothing. -/
theorem gpu_collect_all_or_nothing_instance :
    (gpuCollect (some ("1, 2, 3, 4".data))).length = 4
    ∧ gpuCollect (some ("45".data)) = [] := by
  have h := gpu_collect_all_or_nothing ("1, 2, 3, 4".data) (by decide)
  exact ⟨h.2.2.1, h.2.1 ("45".data) (by decide)⟩

/-- Claim C8: every emitted network sample belongs to an interface from the
fixed monitored list whose trimmed operstate is exactly `up` (so unlisted or
down interfaces never emit); a listed up interface always has all four of its
counter samples emitted; a down interface emits none of its counters; and a
counter file that cannot be read or parsed contributes 0. -/
theorem network_monitored_up_invariant (oper : String → Option (List Char))
    (stats : String → String → Option (List Char)) (s : NetSample) (iface : String)
    (hs : s ∈ networkCollect oper stats)
    (hin : iface ∈ monitoredInterfaces) (hup : isInterfaceUp oper iface = true) :
    (s.iface ∈ monitoredInterfaces ∧ isInterfaceUp oper s.iface = true)
    ∧ (∀ x ∈ ifaceSamples stats iface, x ∈ networkCollect oper stats)
    ∧ networkCollect netOperDown netStatsEx = []
    ∧ readSysUint64 none = 0
    ∧ readSysUint64 (some ("bogus".data)) = 0 := by
  refine ⟨?_, ?_, by decide, rfl, by decide⟩
  · rcases List.mem_flatten.mp hs with ⟨L, hL, hsL⟩
    rcases List.mem_map.mp hL with ⟨iface2, hin2, hfeq⟩
    by_cases hup2 : isInterfaceUp oper iface2 = true
    · rw [if_pos hup2] at hfeq
      rw [← hfeq] at hsL
      have hif : s.iface = iface2 := by
        simp only [ifaceSamples, List.mem_cons, List.not_mem_nil, or_false] at hsL
        rcases hsL with h | h | h | h <;> subst h <;> rfl
      rw [hif]
      exact ⟨hin2, hup2⟩
    · rw [if_neg hup2] at hfeq
      rw [← hfeq] at hsL
      exact absurd hsL (List.not_mem_nil s)
  · intro x hx
    refine List.mem_flatten.mpr ⟨ifaceSamples stats iface, ?_, hx⟩
    exact List.mem_map.mpr ⟨iface, hin, by rw [if_pos hup]⟩

/-- Witness for C8: with only `enP7s7` up and only its `rx_bytes` readable
(value 7), all four of its counters are emitted (0 substituted for the
unreadable ones), and with `enP7s7` down nothing is emitted. -/
theorem network_monitored_up_invariant_instance :
    (⟨"network_transmit_bytes_total", "enP7s7", 0⟩ : NetSample)
      ∈ networkCollect netOperEx netStatsEx
    ∧ networkCollect netOperDown netStatsEx = [] := by
  have h := network_monitored_up_invariant netOperEx netStatsEx
    ⟨"network_receive_bytes_total", "enP7s7", 7⟩ "enP7s7"
    (by decide) (by decide) (by decide)
  exact ⟨h.2.1 _ (by decide), h.2.2.1⟩

/-- Claim C9: for a diskstats line with at least 14 fields, the device at
field position 2 produces its read/write counter samples iff its name matches
no excluded prefix and matches at least one physical-device prefix; an
excluded-prefix match skips the device regardless of the allowlist; and
concretely `nvme0n1` is included while `loop0`, `dm-1` and `zram0` are
excluded. -/
theorem disk_device_filtering (line : List Char)
    (h14 : 14 ≤ (goFields line).length) :
    (diskLineSamples line ≠ [] ↔
      (hasAnyPrefix (diskDevice line) excludedDeviceNames = false
        ∧ hasAnyPrefix (diskDevice line) physicalDeviceNames = true))
    ∧ (hasAnyPrefix (diskDevice line) excludedDeviceNames = true →
        diskLineSamples line = [])
    ∧ diskLineSamples diskLineNvme =
        [("diskio_reads_completed_total", "nvme0n1".data, 123),
         ("diskio_writes_completed_total", "nvme0n1".data, 456)]
    ∧ diskLineSamples diskLineLoop = []
    ∧ diskLineSamples diskLineDm = []
    ∧ diskLineSamples diskLineZram = [] := by
  have hnot : ¬ (goFields line).length < 14 := Nat.not_lt.mpr h14
  refine ⟨?_, ?_, by with_unfolding_all decide, by with_unfolding_all decide,
    by with_unfolding_all decide, by with_unfolding_all decide⟩
  · unfold diskLineSamples
    rw [if_neg hnot]
    by_cases he : hasAnyPrefix (diskDevice line) excludedDeviceNames = true
    · simp [he]
    · by_cases hp : hasAnyPrefix (diskDevice line) physicalDeviceNames = true
      · simp [he, hp]
      · simp [he, hp]
  · intro he
    unfold diskLineSamples
    rw [if_neg hnot]
    simp [he]

/-- Witness for C9 at concrete diskstats lines: the `nvme0n1` line produces
samples and the `loop0` line produces none. -/
theorem disk_device_filtering_instance :
    diskLineSamples diskLineNvme ≠ [] ∧ diskLineSamples diskLineLoop = [] := by
  have h := disk_device_filtering diskLineNvme (by decide)
  exact ⟨h.1.mpr (by decide), h.2.2.2.1⟩
